import Mathlib

/-!
Verification development for the stone-fabrication data pipeline
(merge/clean → feature derivation → quality validation).

The three pipeline stages are embedded shallowly:
* `scripts/etl_pipeline.py`    → `Etl` namespace (merge_sources, clean_integrated)
* `scripts/feature_engineering.py` → `Feat` namespace (safe_divide, engineer_features,
  select_feature_columns)
* `scripts/data_quality.py`    → `Quality` namespace (completeness_by_group,
  critical_null_counts, carve_time_outliers, validate_tool_catalog, assemble_report)

Modelling conventions:
* A pandas numeric cell is modelled as `PVal`: either missing (`na`, pandas NaN),
  a finite rational (`fin q`, standing for the float value), or an infinity
  (`pinf` / `ninf`).  Columns that provably never hold infinities in this
  pipeline (everything read from the source CSVs) are modelled as `Option ℚ`
  (`none` = NaN); the safe-division helper, whose contract explicitly involves
  infinities, works on `PVal`.
* A DataFrame is a list of rows (a fixed record type per table), or — for the
  quality checks, which only read particular columns — the projection of the
  frame that the check actually consumes.
* `job_id` and `tool_id` are non-null strings: they are emitted unconditionally
  by the data generator (`scripts/generate_data.py`) and `job_id` is the join key.
-/

namespace Feat

/-- A pandas float cell: NaN (`na`), a finite value, `+inf` or `-inf`. -/
inductive PVal where
  | na : PVal
  | fin (q : ℚ) : PVal
  | pinf : PVal
  | ninf : PVal
  deriving DecidableEq, Repr

/-- IEEE-754 style division on cells, as performed by `numerator / denominator`
on pandas series: NaN propagates; `a / 0` is `±inf` for `a ≠ 0` and NaN for
`a = 0`; `finite / ±inf = 0`; `±inf / ±inf = NaN`. -/
def PVal.div : PVal → PVal → PVal
  | .na, _ => .na
  | _, .na => .na
  | .fin a, .fin b =>
      if b = 0 then (if a = 0 then .na else if 0 < a then .pinf else .ninf)
      else .fin (a / b)
  | .fin _, .pinf => .fin 0
  | .fin _, .ninf => .fin 0
  | .pinf, .fin b => if b < 0 then .ninf else .pinf
  | .ninf, .fin b => if b < 0 then .pinf else .ninf
  | .pinf, .pinf => .na
  | .pinf, .ninf => .na
  | .ninf, .pinf => .na
  | .ninf, .ninf => .na

/-- IEEE-754 style subtraction on cells (used for `revenue - tool_wear_cost`). -/
def PVal.sub : PVal → PVal → PVal
  | .na, _ => .na
  | _, .na => .na
  | .fin a, .fin b => .fin (a - b)
  | .fin _, .pinf => .ninf
  | .fin _, .ninf => .pinf
  | .pinf, .fin _ => .pinf
  | .ninf, .fin _ => .ninf
  | .pinf, .pinf => .na
  | .pinf, .ninf => .pinf
  | .ninf, .pinf => .ninf
  | .ninf, .ninf => .na

/-- Model of `series.replace([np.inf, -np.inf], np.nan)`: both infinities become NaN. -/
def replace_inf : PVal → PVal
  | .pinf => .na
  | .ninf => .na
  | v => v

/-- Model of `series.replace({0: np.nan})`: an exact zero becomes NaN. -/
def zero_to_na (x : PVal) : PVal :=
  if x = .fin 0 then .na else x

/-- The denominator argument of `safe_divide`: either a scalar constant
(`int`/`float` in Python) or a per-row series. -/
inductive Denom where
  | scalar (c : ℚ) : Denom
  | series (ds : List PVal) : Denom

/-- Model of `safe_divide` from `scripts/feature_engineering.py`:

    if isinstance(denominator, (int, float)):
        if denominator == 0:
            return pd.Series([np.nan] * len(numerator), index=numerator.index)
        result = numerator / denominator
    else:
        result = numerator / denominator.replace({0: np.nan})
    return result.replace([np.inf, -np.inf], np.nan)
-/
def safe_divide (num : List PVal) : Denom → List PVal
  | .scalar c =>
      if c = 0 then num.map (fun _ => .na)
      else (num.map (fun n => n.div (.fin c))).map replace_inf
  | .series ds =>
      (num.zipWith PVal.div (ds.map zero_to_na)).map replace_inf

end Feat

namespace Etl

/-- One row of `powermill_toolpaths.csv` (the anchor table). -/
structure PowermillRow where
  job_id : String
  material : Option String
  tool_id : String
  feed_rate_mm_min : Option ℚ
  stepover_mm : Option ℚ
  path_length_mm : Option ℚ
  volume_removed_cm3 : Option ℚ
  simulation_time_min : Option ℚ
  deriving DecidableEq, Repr

/-- One row of `kuka_telemetry.csv`. -/
structure KukaRow where
  job_id : String
  spindle_current_a : Option ℚ
  torque_mean_nm : Option ℚ
  duration_s : Option ℚ
  energy_kwh : Option ℚ
  deriving DecidableEq, Repr

/-- One row of `quality_inspection.csv`. -/
structure InspectionRow where
  job_id : String
  surface_score : Option ℚ
  defect_count : Option ℚ
  deriving DecidableEq, Repr

/-- One row of `erp_costs.csv`. -/
structure ErpRow where
  job_id : String
  tool_wear_cost_usd : Option ℚ
  labor_hours : Option ℚ
  revenue_usd : Option ℚ
  deriving DecidableEq, Repr

/-- One row of `operator_log.csv`. -/
structure OperatorRow where
  job_id : String
  stone_type : Option String
  operator_notes : Option String
  deriving DecidableEq, Repr

/-- One row of the merged/integrated table: the anchor columns plus every other
source's columns, each nullable (null when the source has no matching job). -/
structure Row where
  job_id : String
  material : Option String
  tool_id : String
  feed_rate_mm_min : Option ℚ
  stepover_mm : Option ℚ
  path_length_mm : Option ℚ
  volume_removed_cm3 : Option ℚ
  simulation_time_min : Option ℚ
  spindle_current_a : Option ℚ
  torque_mean_nm : Option ℚ
  duration_s : Option ℚ
  energy_kwh : Option ℚ
  surface_score : Option ℚ
  defect_count : Option ℚ
  tool_wear_cost_usd : Option ℚ
  labor_hours : Option ℚ
  revenue_usd : Option ℚ
  stone_type : Option String
  operator_notes : Option String
  deriving DecidableEq, Repr

/-- The rows a single left row contributes to a left join, given its key
matches on the right: one row paired with `none` (all right columns NaN) when
there is no match, otherwise one row per match. -/
def join_matches (l : α) (ms : List β) : List (α × Option β) :=
  match ms with
  | [] => [(l, none)]
  | ms => ms.map fun m => (l, some m)

/-- Model of `left.merge(right, on="job_id", how="left")`: every left row in order; a
left row with no key match yields one output row paired with `none` (all right
columns NaN); a row with matches fans out, one output row per matching right
row in right-table order. -/
def left_join (left : List α) (right : List β) (lk : α → String) (rk : β → String) :
    List (α × Option β) :=
  left.flatMap fun l => join_matches l (right.filter fun r => rk r == lk l)

/-- Model of `merge_sources` from `scripts/etl_pipeline.py`: four sequential left joins
onto the powermill (anchor) table, plus the per-source distinct-`job_id`
counts (`df["job_id"].nunique()`), computed before merging. -/
def merge_sources (pm : List PowermillRow) (kk : List KukaRow) (qu : List InspectionRow)
    (er : List ErpRow) (op : List OperatorRow) :
    List Row × List (String × ℕ) :=
  let counts : List (String × ℕ) :=
    [("powermill", ((pm.map (·.job_id)).dedup).length),
     ("kuka", ((kk.map (·.job_id)).dedup).length),
     ("quality", ((qu.map (·.job_id)).dedup).length),
     ("erp", ((er.map (·.job_id)).dedup).length),
     ("operator", ((op.map (·.job_id)).dedup).length)]
  let m1 := left_join pm kk (·.job_id) (·.job_id)
  let m2 := left_join m1 qu (fun p => p.1.job_id) (·.job_id)
  let m3 := left_join m2 er (fun p => p.1.1.job_id) (·.job_id)
  let m4 := left_join m3 op (fun p => p.1.1.1.job_id) (·.job_id)
  let rows := m4.map fun q =>
    let p := q.1.1.1.1
    let k := q.1.1.1.2
    let iq := q.1.1.2
    let e := q.1.2
    let o := q.2
    { job_id := p.job_id
      material := p.material
      tool_id := p.tool_id
      feed_rate_mm_min := p.feed_rate_mm_min
      stepover_mm := p.stepover_mm
      path_length_mm := p.path_length_mm
      volume_removed_cm3 := p.volume_removed_cm3
      simulation_time_min := p.simulation_time_min
      spindle_current_a := k.bind (·.spindle_current_a)
      torque_mean_nm := k.bind (·.torque_mean_nm)
      duration_s := k.bind (·.duration_s)
      energy_kwh := k.bind (·.energy_kwh)
      surface_score := iq.bind (·.surface_score)
      defect_count := iq.bind (·.defect_count)
      tool_wear_cost_usd := e.bind (·.tool_wear_cost_usd)
      labor_hours := e.bind (·.labor_hours)
      revenue_usd := e.bind (·.revenue_usd)
      stone_type := o.bind (·.stone_type)
      operator_notes := o.bind (·.operator_notes) }
  (rows, counts)

/-- Model of `series.fillna(v)`: when `v` is itself NaN (`none`) nulls stay null. -/
def fill_cell (x v : Option ℚ) : Option ℚ :=
  match x with
  | some a => some a
  | none => v

/-- Model of `series.replace(0, np.nan)` on an already-nullable numeric cell. -/
def zero_to_none (x : Option ℚ) : Option ℚ :=
  match x with
  | some a => if a = 0 then none else some a
  | none => none

/-- The non-null values of a column, in row order (pandas `dropna`). -/
def somes (xs : List (Option ℚ)) : List ℚ :=
  xs.filterMap id

/-- Model of `series.median()` (pandas skips NaN): sort the non-null values; odd count
takes the middle value, even count the average of the two middle values;
an all-null column has median NaN (`none`). -/
def median (xs : List ℚ) : Option ℚ :=
  let s := List.insertionSort (· ≤ ·) xs
  if s.length % 2 = 1 then s.get? (s.length / 2)
  else
    match s.get? (s.length / 2 - 1), s.get? (s.length / 2) with
    | some a, some b => some ((a + b) / 2)
    | _, _ => none

/-- The `float -> int` cast used by `astype(int)` (C-style truncation toward zero). -/
def trunc_q (q : ℚ) : ℤ := if 0 ≤ q then ⌊q⌋ else ⌈q⌉

/-- Model of `clean_integrated` from `scripts/etl_pipeline.py`.  The `astype(float)`
normalisations of `feed_rate_mm_min`, `stepover_mm` and `simulation_time_min`
are value-identities on numeric cells and so are identities here.  The column
medians are those of the merged table (each median is computed from the column
before that column is modified, and each of the filled columns is touched only
by its own fill). -/
def clean_integrated (df : List Row) : List Row :=
  let surf_med := median (somes (df.map (·.surface_score)))
  let wear_med := median (somes (df.map (·.tool_wear_cost_usd)))
  let labor_med := median (somes (df.map (·.labor_hours)))
  let rev_med := median (somes (df.map (·.revenue_usd)))
  df.map fun r =>
    { r with
      duration_s :=
        zero_to_none (fill_cell r.duration_s (r.simulation_time_min.map (· * 60)))
      surface_score := fill_cell r.surface_score surf_med
      defect_count := some ((trunc_q ((fill_cell r.defect_count (some 0)).getD 0) : ℤ) : ℚ)
      tool_wear_cost_usd := fill_cell r.tool_wear_cost_usd wear_med
      labor_hours := fill_cell r.labor_hours labor_med
      revenue_usd := fill_cell r.revenue_usd rev_med
      operator_notes := some (r.operator_notes.getD "No operator notes recorded.")
      volume_removed_cm3 := zero_to_none r.volume_removed_cm3
      path_length_mm := zero_to_none r.path_length_mm }

end Etl

namespace Feat

/-- Embed a nullable finite cell (a value read back from the integrated
parquet file) into a pandas float cell. -/
def pv : Option ℚ → PVal
  | none => .na
  | some q => .fin q

/-- A column of the integrated table, as the `PVal` series the feature stage
divides. -/
def col (df : List Etl.Row) (f : Etl.Row → Option ℚ) : List PVal :=
  df.map fun r => pv (f r)

/-- The enriched table produced by `engineer_features`: the input rows plus
the six derived columns (pandas stores them column-wise; so do we). -/
structure FeatTable where
  base : List Etl.Row
  complexity_per_cm3 : List PVal
  load_per_mm : List PVal
  energy_per_cm3 : List PVal
  tool_efficiency : List PVal
  profit_margin : List PVal
  quality_vs_speed : List PVal
  deriving DecidableEq, Repr

/-- Model of `engineer_features` from `scripts/feature_engineering.py`: the six derived
metrics, each via `safe_divide`; `quality_vs_speed` divides by the
scalar-safe-divided `duration_s / 60.0`. -/
def engineer_features (df : List Etl.Row) : FeatTable :=
  { base := df
    complexity_per_cm3 :=
      safe_divide (col df (·.path_length_mm)) (.series (col df (·.volume_removed_cm3)))
    load_per_mm :=
      safe_divide (col df (·.spindle_current_a)) (.series (col df (·.path_length_mm)))
    energy_per_cm3 :=
      safe_divide (col df (·.energy_kwh)) (.series (col df (·.volume_removed_cm3)))
    tool_efficiency :=
      safe_divide (col df (·.volume_removed_cm3)) (.series (col df (·.tool_wear_cost_usd)))
    profit_margin :=
      safe_divide
        ((col df (·.revenue_usd)).zipWith PVal.sub (col df (·.tool_wear_cost_usd)))
        (.series (col df (·.revenue_usd)))
    quality_vs_speed :=
      safe_divide (col df (·.surface_score))
        (.series (safe_divide (col df (·.duration_s)) (.scalar 60))) }

/-- The fixed output projection of `select_feature_columns`: `job_id`,
`material`, `stone_type`, the listed base columns and the six derived columns.
On tables produced by this pipeline every listed column is present, so the
`col in df.columns` filter keeps exactly these. -/
structure FeatSelected where
  job_id : List String
  material : List (Option String)
  stone_type : List (Option String)
  feed_rate_mm_min : List (Option ℚ)
  stepover_mm : List (Option ℚ)
  path_length_mm : List (Option ℚ)
  volume_removed_cm3 : List (Option ℚ)
  spindle_current_a : List (Option ℚ)
  duration_s : List (Option ℚ)
  surface_score : List (Option ℚ)
  tool_wear_cost_usd : List (Option ℚ)
  labor_hours : List (Option ℚ)
  revenue_usd : List (Option ℚ)
  complexity_per_cm3 : List PVal
  load_per_mm : List PVal
  energy_per_cm3 : List PVal
  tool_efficiency : List PVal
  profit_margin : List PVal
  quality_vs_speed : List PVal
  deriving DecidableEq, Repr

/-- Model of `select_feature_columns` from `scripts/feature_engineering.py`: keep only
the ML-facing columns (dropping `tool_id`, `simulation_time_min`,
`torque_mean_nm`, `energy_kwh`, `defect_count`, `operator_notes`). -/
def select_feature_columns (ft : FeatTable) : FeatSelected :=
  { job_id := ft.base.map (·.job_id)
    material := ft.base.map (·.material)
    stone_type := ft.base.map (·.stone_type)
    feed_rate_mm_min := ft.base.map (·.feed_rate_mm_min)
    stepover_mm := ft.base.map (·.stepover_mm)
    path_length_mm := ft.base.map (·.path_length_mm)
    volume_removed_cm3 := ft.base.map (·.volume_removed_cm3)
    spindle_current_a := ft.base.map (·.spindle_current_a)
    duration_s := ft.base.map (·.duration_s)
    surface_score := ft.base.map (·.surface_score)
    tool_wear_cost_usd := ft.base.map (·.tool_wear_cost_usd)
    labor_hours := ft.base.map (·.labor_hours)
    revenue_usd := ft.base.map (·.revenue_usd)
    complexity_per_cm3 := ft.complexity_per_cm3
    load_per_mm := ft.load_per_mm
    energy_per_cm3 := ft.energy_per_cm3
    tool_efficiency := ft.tool_efficiency
    profit_margin := ft.profit_margin
    quality_vs_speed := ft.quality_vs_speed }

end Feat

namespace Quality

/-- Python `round(x, 2)`: round to two decimal places.  (Python rounds float
ties to even; exact two-decimal ties do not arise in this development, so
round-half-up is an adequate model.) -/
def round2 (x : ℚ) : ℚ := (round (x * 100) : ℤ) / 100

/-- Arithmetic mean of a list of rationals (meaningful only for nonempty
lists: pandas returns NaN on an empty mean, our theorems assume nonemptiness). -/
def meanQ (xs : List ℚ) : ℚ := xs.sum / xs.length

/-- Model of `series.isna().mean()`: fraction of null cells in a column's null mask. -/
def null_frac (mask : List Bool) : ℚ := (mask.count true : ℚ) / mask.length

/-- The `SOURCE_GROUPS` table from `scripts/data_quality.py`. -/
def SOURCE_GROUPS : List (String × List String) :=
  [("powermill",
    ["material", "tool_id", "feed_rate_mm_min", "stepover_mm", "path_length_mm",
     "volume_removed_cm3"]),
   ("kuka", ["spindle_current_a", "torque_mean_nm", "duration_s", "energy_kwh"]),
   ("quality", ["surface_score", "defect_count"]),
   ("erp", ["tool_wear_cost_usd", "labor_hours", "revenue_usd"]),
   ("operator", ["stone_type", "operator_notes"])]

/-- The `VALID_TOOL_IDS` allow-list from `scripts/data_quality.py`. -/
def VALID_TOOL_IDS : List String :=
  ["TOOL-ROUGH-20MM", "TOOL-ROUGH-16MM", "TOOL-FINISH-6MM", "TOOL-DETAIL-3MM",
   "TOOL-POLISH-8MM"]

/-- The projection of a DataFrame that `completeness_by_group` and
`critical_null_counts` read: each column's name with its `isna()` mask. -/
abbrev Masks := List (String × List Bool)

/-- Model of `completeness_by_group` from `scripts/data_quality.py`:

    for group, columns in SOURCE_GROUPS.items():
        available_cols = [col for col in columns if col in df.columns]
        if not available_cols:
            completeness[group] = 0.0
            continue
        completeness[group] = round(float(1 - df[available_cols].isna().mean().mean()) * 100, 2)
-/
def completeness_by_group (cols : Masks) : List (String × ℚ) :=
  SOURCE_GROUPS.map fun g =>
    (g.1,
      let available := g.2.filterMap fun c => (cols.lookup c).map fun m => (c, m)
      if available.isEmpty then 0
      else round2 ((1 - meanQ (available.map fun p => null_frac p.2)) * 100))

/-- Model of `critical_null_counts` from `scripts/data_quality.py`: null counts for the
three critical columns, a column absent from the table being omitted. -/
def critical_null_counts (cols : Masks) : List (String × ℕ) :=
  ["duration_s", "surface_score", "revenue_usd"].filterMap fun c =>
    (cols.lookup c).map fun mask => (c, mask.count true)

/-- Population variance (`std(ddof=0)` squared) of a list of rationals. -/
def pop_var (xs : List ℚ) : ℚ :=
  meanQ (xs.map fun x => (x - meanQ xs) ^ 2)

/-- The comparison `duration > mean + 3 * std(ddof=0)` for a non-null cell,
expressed over ℚ: since the standard deviation `σ = √v` is irrational in
general, `d > m + 3σ` is encoded by its algebraic equivalent
`d > m ∧ (d - m)² > 9·v` (proved equivalent in `flag_iff_real_threshold`).
A null cell never passes (`NaN > t` is `False` in pandas). -/
def outlier_flag (m v : ℚ) : Option ℚ → Bool
  | none => false
  | some d => decide (m < d ∧ 9 * v < (d - m) ^ 2)

/-- Model of `carve_time_outliers` from `scripts/data_quality.py`, reading the
`duration_s` and `job_id` columns of the frame:

    duration = df["duration_s"].dropna()
    if duration.empty:
        return {"count": 0, "job_ids": []}
    threshold = duration.mean() + 3 * duration.std(ddof=0)
    mask = df["duration_s"] > threshold
    return {"count": int(mask.sum()), "job_ids": df.loc[mask, "job_id"].tolist()}
-/
def carve_time_outliers (rows : List (Option ℚ × String)) : ℕ × List String :=
  let duration := Etl.somes (rows.map (·.1))
  if duration.isEmpty then (0, [])
  else
    let m := meanQ duration
    let v := pop_var duration
    let flagged := rows.filter fun p => outlier_flag m v p.1
    (flagged.length, flagged.map (·.2))

/-- Model of `validate_tool_catalog` from `scripts/data_quality.py`, reading the
`tool_id` column when present (`none` models an absent column):

    if "tool_id" not in df.columns:
        return {"invalid_count": 0, "unknown_ids": []}
    invalid = df.loc[~df["tool_id"].isin(VALID_TOOL_IDS), "tool_id"]
    return {"invalid_count": int(invalid.size), "unknown_ids": sorted(set(invalid))}
-/
def validate_tool_catalog (tool_col : Option (List String)) : ℕ × List String :=
  match tool_col with
  | none => (0, [])
  | some ids =>
      let invalid := ids.filter fun s => !(VALID_TOOL_IDS.contains s)
      (invalid.length, List.insertionSort (· ≤ ·) invalid.dedup)

/-- The `isna()` masks of the integrated table (all nineteen merged columns;
`job_id` and `tool_id` are never null, see the modelling notes). -/
def row_masks (df : List Etl.Row) : Masks :=
  [("job_id", df.map fun _ => false),
   ("material", df.map fun r => r.material.isNone),
   ("tool_id", df.map fun _ => false),
   ("feed_rate_mm_min", df.map fun r => r.feed_rate_mm_min.isNone),
   ("stepover_mm", df.map fun r => r.stepover_mm.isNone),
   ("path_length_mm", df.map fun r => r.path_length_mm.isNone),
   ("volume_removed_cm3", df.map fun r => r.volume_removed_cm3.isNone),
   ("simulation_time_min", df.map fun r => r.simulation_time_min.isNone),
   ("spindle_current_a", df.map fun r => r.spindle_current_a.isNone),
   ("torque_mean_nm", df.map fun r => r.torque_mean_nm.isNone),
   ("duration_s", df.map fun r => r.duration_s.isNone),
   ("energy_kwh", df.map fun r => r.energy_kwh.isNone),
   ("surface_score", df.map fun r => r.surface_score.isNone),
   ("defect_count", df.map fun r => r.defect_count.isNone),
   ("tool_wear_cost_usd", df.map fun r => r.tool_wear_cost_usd.isNone),
   ("labor_hours", df.map fun r => r.labor_hours.isNone),
   ("revenue_usd", df.map fun r => r.revenue_usd.isNone),
   ("stone_type", df.map fun r => r.stone_type.isNone),
   ("operator_notes", df.map fun r => r.operator_notes.isNone)]

/-- The quality report structure (`assemble_report`'s output shape). -/
structure Report where
  record_count : ℕ
  completeness_percent : List (String × ℚ)
  critical_nulls : List (String × ℕ)
  carve_outliers : ℕ × List String
  tool_catalog_validation : ℕ × List String
  deriving DecidableEq, Repr

/-- Model of `assemble_report` from `scripts/data_quality.py`, applied to the
integrated table. -/
def assemble_report (df : List Etl.Row) : Report :=
  { record_count := df.length
    completeness_percent := completeness_by_group (row_masks df)
    critical_nulls := critical_null_counts (row_masks df)
    carve_outliers := carve_time_outliers (df.map fun r => (r.duration_s, r.job_id))
    tool_catalog_validation := validate_tool_catalog (some (df.map (·.tool_id))) }

end Quality

/-- The three artifacts of one full pipeline run on fixed source tables:
the integrated table (`run_pipeline`), the feature table
(`run_feature_engineering`) and the quality report (`run_quality_checks`),
with file I/O elided. -/
def pipeline_artifacts (pm : List Etl.PowermillRow) (kk : List Etl.KukaRow)
    (qu : List Etl.InspectionRow) (er : List Etl.ErpRow) (op : List Etl.OperatorRow) :
    List Etl.Row × Feat.FeatSelected × Quality.Report :=
  let integrated := Etl.clean_integrated (Etl.merge_sources pm kk qu er op).1
  (integrated,
   Feat.select_feature_columns (Feat.engineer_features integrated),
   Quality.assemble_report integrated)

/-! ## Helper lemmas -/

namespace Feat

theorem div_na (n : PVal) : n.div .na = .na := by cases n <;> rfl

theorem replace_inf_na : replace_inf .na = .na := rfl

theorem zero_to_na_fin_zero : zero_to_na (.fin 0) = .na := rfl

end Feat

/-! ## C2: the safe-division helper -/

/-- C2: for every numerator series, `safe_divide` satisfies: a literal zero
constant denominator yields null at every row; a per-row denominator series
yields null at every row whose denominator is exactly zero; and any row whose
quotient is positive or negative infinity yields null (both in the nonzero
scalar branch and in the series branch). -/
theorem safe_divide_null_guards (num : List Feat.PVal) :
    (∀ i : ℕ, i < num.length →
      (Feat.safe_divide num (.scalar 0))[i]? = some .na) ∧
    (∀ (ds : List Feat.PVal) (i : ℕ), i < num.length → ds[i]? = some (.fin 0) →
      (Feat.safe_divide num (.series ds))[i]? = some .na) ∧
    (∀ (c : ℚ) (i : ℕ) (n : Feat.PVal), c ≠ 0 → num[i]? = some n →
      (n.div (.fin c) = .pinf ∨ n.div (.fin c) = .ninf) →
      (Feat.safe_divide num (.scalar c))[i]? = some .na) ∧
    (∀ (ds : List Feat.PVal) (i : ℕ) (n d : Feat.PVal),
      num[i]? = some n → (ds.map Feat.zero_to_na)[i]? = some d →
      (n.div d = .pinf ∨ n.div d = .ninf) →
      (Feat.safe_divide num (.series ds))[i]? = some .na) := by
  refine ⟨?_, ?_, ?_, ?_⟩
  · intro i hi
    simp [Feat.safe_divide, List.getElem?_map, List.getElem?_eq_getElem hi,
      List.getElem?_replicate, hi]
  · intro ds i hi hds
    have hnum : num[i]? = some num[i] := List.getElem?_eq_getElem hi
    simp [Feat.safe_divide, List.getElem?_map, List.getElem?_zipWith', hnum, hds,
      Feat.zero_to_na_fin_zero, Feat.div_na, Feat.replace_inf_na]
  · intro c i n hc hn hdiv
    rcases hdiv with h | h <;>
      simp [Feat.safe_divide, hc, List.getElem?_map, hn, h, Feat.replace_inf]
  · intro ds i n d hn hd hdiv
    rcases hdiv with h | h <;>
      simp [Feat.safe_divide, List.getElem?_map, List.getElem?_zipWith', hn, hd, h,
        Feat.replace_inf]

/-- Closed instance of `safe_divide_null_guards`, one conjunct per branch of
the contract at concrete inputs. -/
theorem safe_divide_null_guards_witness :
    (Feat.safe_divide [Feat.PVal.fin 5] (.scalar 0))[0]? = some .na ∧
    (Feat.safe_divide [Feat.PVal.fin 5] (.series [Feat.PVal.fin 0]))[0]? = some .na ∧
    (Feat.safe_divide [Feat.PVal.pinf] (.scalar 2))[0]? = some .na ∧
    (Feat.safe_divide [Feat.PVal.pinf] (.series [Feat.PVal.fin 2]))[0]? = some .na :=
  ⟨(safe_divide_null_guards [Feat.PVal.fin 5]).1 0 (by decide),
   (safe_divide_null_guards [Feat.PVal.fin 5]).2.1 [Feat.PVal.fin 0] 0 (by decide) (by decide),
   (safe_divide_null_guards [Feat.PVal.pinf]).2.2.1 2 0 Feat.PVal.pinf (by norm_num) (by decide)
     (by decide),
   (safe_divide_null_guards [Feat.PVal.pinf]).2.2.2 [Feat.PVal.fin 2] 0 Feat.PVal.pinf
     (Feat.zero_to_na (Feat.PVal.fin 2)) (by decide) (by decide) (by decide)⟩

/-! ## C1: merged row count vs. anchor row count -/

theorem length_join_matches_of_le_one {α β : Type} (l : α) (ms : List β)
    (h : ms.length ≤ 1) : (Etl.join_matches l ms).length = 1 := by
  rcases ms with _ | ⟨m, rest⟩
  · rfl
  · simp only [List.length_cons] at h
    simp only [Etl.join_matches, List.length_map, List.length_cons]
    omega

theorem length_left_join_of_le_one {α β : Type} (left : List α) (right : List β)
    (lk : α → String) (rk : β → String)
    (h : ∀ l ∈ left, (right.filter (fun r => rk r == lk l)).length ≤ 1) :
    (Etl.left_join left right lk rk).length = left.length := by
  induction left with
  | nil => rfl
  | cons a as ih =>
      have hrest := ih fun l hl => h l (List.mem_cons_of_mem a hl)
      simp only [Etl.left_join, List.flatMap_cons] at hrest ⊢
      rw [List.length_append,
        length_join_matches_of_le_one a _ (h a (List.mem_cons_self a as)), hrest,
        List.length_cons, Nat.add_comm]

/-- C1 (amended): the merged table has exactly as many rows as the
program-metrics (anchor) table whenever every job identifier matches at most
one row in each of the four non-anchor tables; a duplicated key in a non-anchor
table fans out and produces extra rows. -/
theorem merge_sources_row_count (pm : List Etl.PowermillRow) (kk : List Etl.KukaRow)
    (qu : List Etl.InspectionRow) (er : List Etl.ErpRow) (op : List Etl.OperatorRow)
    (hk : ∀ j, (kk.filter (fun r => r.job_id == j)).length ≤ 1)
    (hq : ∀ j, (qu.filter (fun r => r.job_id == j)).length ≤ 1)
    (he : ∀ j, (er.filter (fun r => r.job_id == j)).length ≤ 1)
    (ho : ∀ j, (op.filter (fun r => r.job_id == j)).length ≤ 1) :
    (Etl.merge_sources pm kk qu er op).1.length = pm.length := by
  simp only [Etl.merge_sources, List.length_map]
  rw [length_left_join_of_le_one _ _ _ _ fun l _ => ho _,
    length_left_join_of_le_one _ _ _ _ fun l _ => he _,
    length_left_join_of_le_one _ _ _ _ fun l _ => hq _,
    length_left_join_of_le_one _ _ _ _ fun l _ => hk _]

/-- A one-row anchor table. -/
def cex_pm : List Etl.PowermillRow :=
  [{ job_id := "J001", material := some "Granite", tool_id := "TOOL-ROUGH-20MM",
     feed_rate_mm_min := some 880, stepover_mm := some 2, path_length_mm := some 28000,
     volume_removed_cm3 := some 15200, simulation_time_min := some 32 }]

/-- A telemetry table in which job `J001` appears twice. -/
def cex_kk : List Etl.KukaRow :=
  [{ job_id := "J001", spindle_current_a := some 27, torque_mean_nm := some 148,
     duration_s := some 2400, energy_kwh := some 7 },
   { job_id := "J001", spindle_current_a := some 28, torque_mean_nm := some 150,
     duration_s := some 2500, energy_kwh := some 8 }]

/-- C1 is false as stated: with a duplicated `job_id` in the telemetry
table, the merged table has two rows while the anchor has one — the row count
is not independent of the contents of the non-anchor tables. -/
theorem merge_sources_row_count_cex :
    (Etl.merge_sources cex_pm cex_kk [] [] []).1.length ≠ cex_pm.length := by decide

/-- Closed instance of `merge_sources_row_count` on concrete tables whose
non-anchor sources have at most one row per job identifier. -/
theorem merge_sources_row_count_witness :
    (Etl.merge_sources cex_pm [] [] [] []).1.length = cex_pm.length :=
  merge_sources_row_count cex_pm [] [] [] []
    (fun _ => by simp) (fun _ => by simp) (fun _ => by simp) (fun _ => by simp)

/-! ## The cleaner, row-wise -/

theorem clean_integrated_getElem (df : List Etl.Row) (i : ℕ) (r : Etl.Row)
    (h : df[i]? = some r) :
    (Etl.clean_integrated df)[i]? = some
      { r with
        duration_s :=
          Etl.zero_to_none (Etl.fill_cell r.duration_s (r.simulation_time_min.map (· * 60)))
        surface_score :=
          Etl.fill_cell r.surface_score (Etl.median (Etl.somes (df.map (·.surface_score))))
        defect_count :=
          some ((Etl.trunc_q ((Etl.fill_cell r.defect_count (some 0)).getD 0) : ℤ) : ℚ)
        tool_wear_cost_usd :=
          Etl.fill_cell r.tool_wear_cost_usd
            (Etl.median (Etl.somes (df.map (·.tool_wear_cost_usd))))
        labor_hours :=
          Etl.fill_cell r.labor_hours (Etl.median (Etl.somes (df.map (·.labor_hours))))
        revenue_usd :=
          Etl.fill_cell r.revenue_usd (Etl.median (Etl.somes (df.map (·.revenue_usd))))
        operator_notes := some (r.operator_notes.getD "No operator notes recorded.")
        volume_removed_cm3 := Etl.zero_to_none r.volume_removed_cm3
        path_length_mm := Etl.zero_to_none r.path_length_mm } := by
  simp [Etl.clean_integrated, List.getElem?_map, h]

/-! ## C4: median imputation -/

/-- C4: for every merged table and each median-imputed column (surface
score, tool wear cost, labor hours): a cell that was null before cleaning
equals, after cleaning, the median of that column over the non-null values of
the same table (when the whole column is null the cell stays null, the median
being undefined), and a non-null cell is unchanged. -/
theorem clean_median_imputation (df : List Etl.Row) (i : ℕ) (r r' : Etl.Row)
    (h : df[i]? = some r) (h' : (Etl.clean_integrated df)[i]? = some r') :
    ((r.surface_score = none →
        r'.surface_score = Etl.median (Etl.somes (df.map (·.surface_score)))) ∧
      (∀ v, r.surface_score = some v → r'.surface_score = some v)) ∧
    ((r.tool_wear_cost_usd = none →
        r'.tool_wear_cost_usd = Etl.median (Etl.somes (df.map (·.tool_wear_cost_usd)))) ∧
      (∀ v, r.tool_wear_cost_usd = some v → r'.tool_wear_cost_usd = some v)) ∧
    ((r.labor_hours = none →
        r'.labor_hours = Etl.median (Etl.somes (df.map (·.labor_hours)))) ∧
      (∀ v, r.labor_hours = some v → r'.labor_hours = some v)) := by
  have hc := clean_integrated_getElem df i r h
  rw [h'] at hc
  have hr' := Option.some_injective _ hc
  subst hr'
  refine ⟨⟨fun hs => ?_, fun v hv => ?_⟩, ⟨fun hs => ?_, fun v hv => ?_⟩,
    ⟨fun hs => ?_, fun v hv => ?_⟩⟩ <;> simp_all [Etl.fill_cell]

def c4_df : List Etl.Row :=
  [{ job_id := "J001", material := none, tool_id := "TOOL-ROUGH-20MM",
     feed_rate_mm_min := none, stepover_mm := none, path_length_mm := none,
     volume_removed_cm3 := none, simulation_time_min := none, spindle_current_a := none,
     torque_mean_nm := none, duration_s := none, energy_kwh := none, surface_score := none,
     defect_count := none, tool_wear_cost_usd := none, labor_hours := none,
     revenue_usd := some 10, stone_type := none, operator_notes := none },
   { job_id := "J002", material := none, tool_id := "TOOL-ROUGH-16MM",
     feed_rate_mm_min := none, stepover_mm := none, path_length_mm := none,
     volume_removed_cm3 := none, simulation_time_min := none, spindle_current_a := none,
     torque_mean_nm := none, duration_s := none, energy_kwh := none,
     surface_score := some 80, defect_count := none, tool_wear_cost_usd := some 4,
     labor_hours := some 2, revenue_usd := some 20, stone_type := none,
     operator_notes := none }]

/-- The cleaned form of the first row of `c4_df`. -/
def c4_out0 : Etl.Row :=
  { job_id := "J001", material := none, tool_id := "TOOL-ROUGH-20MM",
    feed_rate_mm_min := none, stepover_mm := none, path_length_mm := none,
    volume_removed_cm3 := none, simulation_time_min := none, spindle_current_a := none,
    torque_mean_nm := none, duration_s := none, energy_kwh := none,
    surface_score := some 80, defect_count := some 0, tool_wear_cost_usd := some 4,
    labor_hours := some 2, revenue_usd := some 10, stone_type := none,
    operator_notes := some "No operator notes recorded." }

/-- Closed instance of `clean_median_imputation`: in `c4_df` the first row's
null surface score is filled with the column median. -/
theorem clean_median_imputation_witness :
    c4_out0.surface_score = Etl.median (Etl.somes (c4_df.map (·.surface_score))) :=
  (clean_median_imputation c4_df 0 (c4_df.get ⟨0, by decide⟩) c4_out0 (by decide)
    (by decide)).1.1 (by decide)

/-! ## C5: duration imputation happens before the zero guard -/

/-- C5: in the cleaner, the duration fill from the simulated estimate
(`simulation_time_min * 60`) is applied before the pass that turns zero
durations into null: a row with a null duration and an estimate scaling to a
positive value gets that positive duration; a row whose duration is zero —
originally, or after imputation from a zero estimate — ends up null, not zero. -/
theorem clean_duration_before_zero_guard (df : List Etl.Row) (i : ℕ) (r r' : Etl.Row)
    (h : df[i]? = some r) (h' : (Etl.clean_integrated df)[i]? = some r') :
    (∀ t : ℚ, r.duration_s = none → r.simulation_time_min = some t → 0 < t * 60 →
        r'.duration_s = some (t * 60)) ∧
    (r.duration_s = some 0 → r'.duration_s = none) ∧
    (r.duration_s = none → r.simulation_time_min = some 0 → r'.duration_s = none) := by
  have hc := clean_integrated_getElem df i r h
  rw [h'] at hc
  have hr' := Option.some_injective _ hc
  subst hr'
  refine ⟨fun t hd hsim ht => ?_, fun hd => ?_, fun hd hsim => ?_⟩
  · simp [Etl.fill_cell, Etl.zero_to_none, hd, hsim, ne_of_gt ht]
  · simp [Etl.fill_cell, Etl.zero_to_none, hd]
  · simp [Etl.fill_cell, Etl.zero_to_none, hd, hsim]

def c5_df : List Etl.Row :=
  [{ job_id := "J001", material := none, tool_id := "TOOL-ROUGH-20MM",
     feed_rate_mm_min := none, stepover_mm := none, path_length_mm := none,
     volume_removed_cm3 := none, simulation_time_min := some 30, spindle_current_a := none,
     torque_mean_nm := none, duration_s := none, energy_kwh := none, surface_score := none,
     defect_count := none, tool_wear_cost_usd := none, labor_hours := none,
     revenue_usd := none, stone_type := none, operator_notes := none },
   { job_id := "J002", material := none, tool_id := "TOOL-ROUGH-16MM",
     feed_rate_mm_min := none, stepover_mm := none, path_length_mm := none,
     volume_removed_cm3 := none, simulation_time_min := some 30, spindle_current_a := none,
     torque_mean_nm := none, duration_s := some 0, energy_kwh := none, surface_score := none,
     defect_count := none, tool_wear_cost_usd := none, labor_hours := none,
     revenue_usd := none, stone_type := none, operator_notes := none }]

/-- Closed instance of `clean_duration_before_zero_guard`: a null duration
with estimate 30 min becomes 1800 s, while an exact zero duration becomes
null. -/
theorem clean_duration_before_zero_guard_witness :
    ((Etl.clean_integrated c5_df)[0]?.map (·.duration_s) = some (some ((30 : ℚ) * 60))) ∧
    ((Etl.clean_integrated c5_df)[1]?.map (·.duration_s) = some none) := by
  have h0 : c5_df[0]? = some (c5_df.get ⟨0, by norm_num [c5_df]⟩) := rfl
  have h1 : c5_df[1]? = some (c5_df.get ⟨1, by norm_num [c5_df]⟩) := rfl
  have hc0 := clean_integrated_getElem c5_df 0 _ h0
  have hc1 := clean_integrated_getElem c5_df 1 _ h1
  have d0 := (clean_duration_before_zero_guard c5_df 0 _ _ h0 hc0).1 30 rfl rfl (by norm_num)
  have d1 := (clean_duration_before_zero_guard c5_df 1 _ _ h1 hc1).2.1 rfl
  exact ⟨by rw [hc0]; simpa using d0, by rw [hc1]; simpa using d1⟩

/-! ## C6: degenerate denominators in the feature stage -/

theorem engineer_features_guards (df : List Etl.Row) (i : ℕ) (r : Etl.Row)
    (h : df[i]? = some r) :
    (r.volume_removed_cm3 = none ∨ r.volume_removed_cm3 = some 0 →
      (Feat.engineer_features df).complexity_per_cm3[i]? = some .na ∧
      (Feat.engineer_features df).energy_per_cm3[i]? = some .na) ∧
    (r.revenue_usd = some 0 →
      (Feat.engineer_features df).profit_margin[i]? = some .na) := by
  constructor
  · intro hvol
    have hna : Feat.zero_to_na (Feat.pv r.volume_removed_cm3) = .na := by
      rcases hvol with hv | hv <;> simp [hv, Feat.pv, Feat.zero_to_na]
    constructor <;>
      simp [Feat.engineer_features, Feat.safe_divide, Feat.col, List.getElem?_map,
        List.getElem?_zipWith', h, hna, Feat.div_na, Feat.replace_inf_na]
  · intro hrev
    have hna : Feat.zero_to_na (Feat.pv r.revenue_usd) = .na := by
      simp [hrev, Feat.pv, Feat.zero_to_na]
    simp [Feat.engineer_features, Feat.safe_divide, Feat.col, List.getElem?_map,
      List.getElem?_zipWith', h, hna, Feat.div_na, Feat.replace_inf_na]

/-- C6: for every row of the cleaned-then-featured table: if volume removed
is null or 0, `complexity_per_cm3` and `energy_per_cm3` are undefined (NaN) —
never zero and never infinite; and if revenue is 0, `profit_margin` is
undefined, not negative infinity. -/
theorem features_degenerate_guards (df : List Etl.Row) (i : ℕ) (r : Etl.Row)
    (h : (Etl.clean_integrated df)[i]? = some r) :
    (r.volume_removed_cm3 = none ∨ r.volume_removed_cm3 = some 0 →
      (Feat.engineer_features (Etl.clean_integrated df)).complexity_per_cm3[i]? = some .na ∧
      (Feat.engineer_features (Etl.clean_integrated df)).energy_per_cm3[i]? = some .na) ∧
    (r.revenue_usd = some 0 →
      (Feat.engineer_features (Etl.clean_integrated df)).profit_margin[i]? = some .na) :=
  engineer_features_guards (Etl.clean_integrated df) i r h

def c6_df : List Etl.Row :=
  [{ job_id := "J001", material := none, tool_id := "TOOL-ROUGH-20MM",
     feed_rate_mm_min := none, stepover_mm := none, path_length_mm := some 100,
     volume_removed_cm3 := some 0, simulation_time_min := none, spindle_current_a := none,
     torque_mean_nm := none, duration_s := some 60, energy_kwh := some 5,
     surface_score := some 90, defect_count := some 1, tool_wear_cost_usd := some 3,
     labor_hours := some 2, revenue_usd := some 0, stone_type := none,
     operator_notes := none }]

/-- Closed instance of `features_degenerate_guards`: a job whose volume removed
was zero (nulled by the cleaner) and whose revenue is zero has NaN
`complexity_per_cm3`, `energy_per_cm3` and `profit_margin`. -/
theorem features_degenerate_guards_witness :
    (Feat.engineer_features (Etl.clean_integrated c6_df)).complexity_per_cm3[0]? = some .na ∧
    (Feat.engineer_features (Etl.clean_integrated c6_df)).energy_per_cm3[0]? = some .na ∧
    (Feat.engineer_features (Etl.clean_integrated c6_df)).profit_margin[0]? = some .na := by
  have h0 : c6_df[0]? = some (c6_df.get ⟨0, by norm_num [c6_df]⟩) := rfl
  have hc := clean_integrated_getElem c6_df 0 _ h0
  have hg := features_degenerate_guards c6_df 0 _ hc
  have hvol := hg.1 (Or.inl (by rfl))
  exact ⟨hvol.1, hvol.2, hg.2 rfl⟩

/-! ## C3: carve-time outlier detection -/

/-- The computable flag `d > m ∧ (d-m)² > 9·v` coincides with the real
threshold comparison `d > m + 3σ` whenever `σ ≥ 0` and `σ² = v` (i.e. σ is the
population standard deviation). -/
theorem outlier_flag_iff_real (m v d : ℚ) (σ : ℝ) (hσ : 0 ≤ σ)
    (hσ2 : σ ^ 2 = (v : ℝ)) :
    Quality.outlier_flag m v (some d) = true ↔ (m : ℝ) + 3 * σ < (d : ℝ) := by
  simp only [Quality.outlier_flag, decide_eq_true_eq]
  constructor
  · rintro ⟨h1, h2⟩
    have h1' : (m : ℝ) < d := by exact_mod_cast h1
    have h2' : 9 * (v : ℝ) < ((d : ℝ) - m) ^ 2 := by exact_mod_cast h2
    nlinarith [h1', h2', hσ, hσ2, sq_nonneg ((d : ℝ) - m + 3 * σ)]
  · intro h
    have hm : (m : ℝ) < d := by nlinarith
    refine ⟨by exact_mod_cast hm, ?_⟩
    have : 9 * (v : ℝ) < ((d : ℝ) - m) ^ 2 := by nlinarith
    exact_mod_cast this

/-- C3: outlier detection uses only the duration column: with `m` the mean
and `v` the population variance (denominator N) of the non-null durations and
`σ = √v`, exactly the rows whose duration strictly exceeds `m + 3σ` are
flagged; null durations never flag; flagged job identifiers are listed in
original row order without deduplication (the count is their number); zero
non-null durations give count 0 and an empty list; and for durations
`[100, 100, 100, 100, 10000]` nothing is flagged. -/
theorem carve_time_outliers_spec (rows : List (Option ℚ × String)) (σ : ℝ)
    (hσ : 0 ≤ σ)
    (hσ2 : σ ^ 2 = (Quality.pop_var (Etl.somes (rows.map (·.1))) : ℝ)) :
    (Etl.somes (rows.map (·.1)) = [] → Quality.carve_time_outliers rows = (0, [])) ∧
    (∀ d : ℚ,
      Quality.outlier_flag (Quality.meanQ (Etl.somes (rows.map (·.1))))
          (Quality.pop_var (Etl.somes (rows.map (·.1)))) (some d) = true ↔
        ((Quality.meanQ (Etl.somes (rows.map (·.1)))) : ℝ) + 3 * σ < (d : ℝ)) ∧
    (Quality.outlier_flag (Quality.meanQ (Etl.somes (rows.map (·.1))))
        (Quality.pop_var (Etl.somes (rows.map (·.1)))) none = false) ∧
    (Etl.somes (rows.map (·.1)) ≠ [] →
      Quality.carve_time_outliers rows =
        (((rows.filter fun p =>
            Quality.outlier_flag (Quality.meanQ (Etl.somes (rows.map (·.1))))
              (Quality.pop_var (Etl.somes (rows.map (·.1)))) p.1).map (·.2)).length,
         (rows.filter fun p =>
            Quality.outlier_flag (Quality.meanQ (Etl.somes (rows.map (·.1))))
              (Quality.pop_var (Etl.somes (rows.map (·.1)))) p.1).map (·.2))) ∧
    Quality.carve_time_outliers
      [(some 100, "J001"), (some 100, "J002"), (some 100, "J003"), (some 100, "J004"),
       (some 10000, "J005")] = (0, []) := by
  refine ⟨fun hemp => ?_, fun d => outlier_flag_iff_real _ _ d σ hσ hσ2, rfl,
    fun hne => ?_, ?_⟩
  · simp [Quality.carve_time_outliers, hemp]
  · simp [Quality.carve_time_outliers, List.isEmpty_iff, hne, List.length_map]
  · have hs : Etl.somes [some 100, some 100, some 100, some 100, some 10000] =
        [100, 100, 100, 100, 10000] := by
      simp [Etl.somes]
    have hm : Quality.meanQ [100, 100, 100, 100, 10000] = 2080 := by
      norm_num [Quality.meanQ]
    have hv : Quality.pop_var [100, 100, 100, 100, 10000] = 15681600 := by
      norm_num [Quality.pop_var, Quality.meanQ]
    have hf1 : Quality.outlier_flag 2080 15681600 (some 100) = false := by
      norm_num [Quality.outlier_flag]
    have hf2 : Quality.outlier_flag 2080 15681600 (some 10000) = false := by
      norm_num [Quality.outlier_flag]
    simp [Quality.carve_time_outliers, hs, hm, hv, hf1, hf2, List.filter]

/-- Closed instance of `carve_time_outliers_spec` at the spec's example, with
`σ = 3960` the population standard deviation of the example durations. -/
theorem carve_time_outliers_spec_witness :
    Quality.carve_time_outliers
      [(some 100, "J001"), (some 100, "J002"), (some 100, "J003"), (some 100, "J004"),
       (some 10000, "J005")] = (0, []) := by
  have hsm : Etl.somes ([(some 100, "J001"), (some 100, "J002"), (some 100, "J003"),
      (some 100, "J004"), (some 10000, "J005")].map (·.1)) =
      [100, 100, 100, 100, 10000] := rfl
  have hv : Quality.pop_var (Etl.somes ([(some 100, "J001"), (some 100, "J002"),
      (some 100, "J003"), (some 100, "J004"), (some 10000, "J005")].map (·.1))) =
      15681600 := by
    rw [hsm]
    norm_num [Quality.pop_var, Quality.meanQ]
  exact (carve_time_outliers_spec
    [(some 100, "J001"), (some 100, "J002"), (some 100, "J003"), (some 100, "J004"),
     (some 10000, "J005")] 3960 (by norm_num) (by rw [hv]; norm_num)).2.2.2.2

/-! ## C7: tool catalog validation -/

theorem not_contains_eq_decide (s : String) :
    (!(Quality.VALID_TOOL_IDS.contains s)) = decide (s ∉ Quality.VALID_TOOL_IDS) := by
  by_cases h : s ∈ Quality.VALID_TOOL_IDS <;> simp [h]

/-- C7: catalog validation reports `invalid_count` as the number of rows
(duplicates counted) whose tool identifier is not in the fixed allow-list and
`unknown_ids` as the sorted, duplicate-free list of unknown identifiers; an
absent tool-identifier column yields `(0, [])`; and on the spec's example the
result is `(2, ["TOOL-FAKE-1"])`. -/
theorem validate_tool_catalog_spec (ids : List String) :
    Quality.validate_tool_catalog none = (0, []) ∧
    (Quality.validate_tool_catalog (some ids)).1 =
      ids.countP (fun s => decide (s ∉ Quality.VALID_TOOL_IDS)) ∧
    (∀ s, s ∈ (Quality.validate_tool_catalog (some ids)).2 ↔
      s ∈ ids ∧ s ∉ Quality.VALID_TOOL_IDS) ∧
    List.Sorted (· ≤ ·) (Quality.validate_tool_catalog (some ids)).2 ∧
    (Quality.validate_tool_catalog (some ids)).2.Nodup ∧
    Quality.validate_tool_catalog (some ["TOOL-ROUGH-20MM", "TOOL-FAKE-1", "TOOL-FAKE-1"]) =
      (2, ["TOOL-FAKE-1"]) := by
  have hfe : (ids.filter fun s => !(Quality.VALID_TOOL_IDS.contains s)) =
      ids.filter fun s => decide (s ∉ Quality.VALID_TOOL_IDS) :=
    List.filter_congr fun s _ => not_contains_eq_decide s
  refine ⟨rfl, ?_, ?_, ?_, ?_, by decide⟩
  · simp [Quality.validate_tool_catalog, hfe, List.countP_eq_length_filter]
  · intro s
    simp [Quality.validate_tool_catalog, List.mem_insertionSort, List.mem_dedup,
      List.mem_filter]
  · exact List.sorted_insertionSort (· ≤ ·) _
  · exact ((List.perm_insertionSort (· ≤ ·) _).nodup_iff).mpr (List.nodup_dedup _)

/-- Closed instance of `validate_tool_catalog_spec` at the spec's example. -/
theorem validate_tool_catalog_spec_witness :
    Quality.validate_tool_catalog
      (some ["TOOL-ROUGH-20MM", "TOOL-FAKE-1", "TOOL-FAKE-1"]) = (2, ["TOOL-FAKE-1"]) :=
  (validate_tool_catalog_spec ["TOOL-ROUGH-20MM", "TOOL-FAKE-1", "TOOL-FAKE-1"]).2.2.2.2.2

/-! ## C8: completeness by source group -/

theorem lookup_keyed_map {β γ : Type} (f : String × β → γ) (l : List (String × β))
    (g : String) (b : β) (hnd : (l.map Prod.fst).Nodup) (hmem : (g, b) ∈ l) :
    (l.map fun p => (p.1, f p)).lookup g = some (f (g, b)) := by
  induction l with
  | nil => cases hmem
  | cons p rest ih =>
      rcases List.mem_cons.mp hmem with heq | hmem'
      · rw [← heq]
        simp [List.lookup]
      · rw [List.map_cons, List.nodup_cons] at hnd
        have hk : (g == p.1) = false := by
          refine beq_eq_false_iff_ne.mpr fun hgg => hnd.1 ?_
          exact hgg ▸ List.mem_map.mpr ⟨(g, b), hmem', rfl⟩
        simp only [List.map_cons, List.lookup, hk]
        exact ih hnd.2 hmem'

/-- C8: for every table (with a positive row count `n`, every column mask
of length `n`) and every named source group, the completeness score is
`100 × (1 − mean over the group's columns present of the per-column null
fraction)` rounded to two decimals; a group with none of its expected columns
present scores exactly 0 and is still a key of the mapping, which has exactly
the five group names as keys. -/
theorem completeness_by_group_spec (cols : Quality.Masks) (n : ℕ) (hn : 0 < n)
    (hlen : ∀ p ∈ cols, (p.2 : List Bool).length = n) :
    ((Quality.completeness_by_group cols).map Prod.fst =
      Quality.SOURCE_GROUPS.map Prod.fst) ∧
    ∀ g gcols, (g, gcols) ∈ Quality.SOURCE_GROUPS →
      (Quality.completeness_by_group cols).lookup g =
        some ((fun fracs =>
            if fracs.isEmpty then (0 : ℚ)
            else Quality.round2 (100 * (1 - fracs.sum / fracs.length)))
          (gcols.filterMap fun c => (cols.lookup c).map fun m => Quality.null_frac m)) := by
  constructor
  · rw [Quality.completeness_by_group, List.map_map]
    exact List.map_congr_left fun p _ => rfl
  · intro g gcols hmem
    have hnd : (Quality.SOURCE_GROUPS.map Prod.fst).Nodup := by decide
    have hdef : Quality.completeness_by_group cols =
        Quality.SOURCE_GROUPS.map fun p =>
          (p.1,
            (fun q : String × List String =>
              let available := q.2.filterMap fun c => (cols.lookup c).map fun m => (c, m)
              if available.isEmpty then (0 : ℚ)
              else Quality.round2
                ((1 - Quality.meanQ (available.map fun p => Quality.null_frac p.2)) * 100)) p) :=
      List.map_congr_left fun p _ => rfl
    rw [hdef, lookup_keyed_map _ _ _ _ hnd hmem]
    have hmap : ((gcols.filterMap fun c => (cols.lookup c).map fun m => (c, m)).map
          fun p => Quality.null_frac p.2) =
        gcols.filterMap fun c => (cols.lookup c).map fun m => Quality.null_frac m := by
      rw [List.map_filterMap]
      congr 1
      funext c
      rcases List.lookup c cols with _ | m <;> rfl
    have hemp : (gcols.filterMap fun c => (cols.lookup c).map fun m => (c, m)).isEmpty =
        (gcols.filterMap fun c => (cols.lookup c).map fun m => Quality.null_frac m).isEmpty := by
      rw [← hmap]
      rcases (gcols.filterMap fun c => (cols.lookup c).map fun m => (c, m)) with _ | _ <;> rfl
    simp only
    rw [hmap, hemp]
    rcases h : (gcols.filterMap fun c => (cols.lookup c).map fun m => Quality.null_frac m) with
      _ | ⟨a, l⟩
    · rfl
    · simp only [List.isEmpty_cons, if_false, Bool.false_eq_true]
      rw [← h]
      congr 1
      rw [Quality.meanQ]
      ring

def c8_cols : Quality.Masks := [("material", [false]), ("tool_id", [true])]

/-- Closed instance of `completeness_by_group_spec`: with only `material` and
`tool_id` present (one row), the operator group — none of whose columns is
present — still appears in the mapping and scores exactly 0. -/
theorem completeness_by_group_spec_witness :
    (Quality.completeness_by_group c8_cols).lookup "operator" = some 0 := by
  have h := (completeness_by_group_spec c8_cols 1 (by norm_num) (by decide)).2
    "operator" ["stone_type", "operator_notes"] (by decide)
  simpa [c8_cols, List.lookup, List.filterMap] using h

/-! ## C9: the pipeline is deterministic -/

/-- C9: every stage of the pipeline is a deterministic function of its
input tables: two runs of the full three-stage pipeline on identical source
tables produce value-identical integrated, feature, and quality artifacts. -/
theorem pipeline_deterministic (pm₁ pm₂ : List Etl.PowermillRow)
    (kk₁ kk₂ : List Etl.KukaRow) (qu₁ qu₂ : List Etl.InspectionRow)
    (er₁ er₂ : List Etl.ErpRow) (op₁ op₂ : List Etl.OperatorRow)
    (h1 : pm₁ = pm₂) (h2 : kk₁ = kk₂) (h3 : qu₁ = qu₂) (h4 : er₁ = er₂)
    (h5 : op₁ = op₂) :
    pipeline_artifacts pm₁ kk₁ qu₁ er₁ op₁ = pipeline_artifacts pm₂ kk₂ qu₂ er₂ op₂ := by
  subst h1 h2 h3 h4 h5
  rfl

/-- Closed instance of `pipeline_deterministic` on concrete source tables. -/
theorem pipeline_deterministic_witness :
    pipeline_artifacts [] [] [] [] [] = pipeline_artifacts [] [] [] [] [] :=
  pipeline_deterministic [] [] [] [] [] [] [] [] [] [] rfl rfl rfl rfl rfl

/-! ## C10: revenue is median-imputed too -/

theorem median_isSome {xs : List ℚ} (h : xs ≠ []) : (Etl.median xs).isSome := by
  have hpos : 0 < (List.insertionSort (· ≤ ·) xs).length := by
    rw [List.length_insertionSort]
    exact List.length_pos.mpr h
  simp only [Etl.median]
  by_cases hodd : (List.insertionSort (· ≤ ·) xs).length % 2 = 1
  · rw [if_pos hodd, List.get?_eq_get (Nat.div_lt_self hpos one_lt_two)]
    rfl
  · rw [if_neg hodd, List.get?_eq_get (show (List.insertionSort (· ≤ ·) xs).length / 2 - 1 <
      (List.insertionSort (· ≤ ·) xs).length by omega),
      List.get?_eq_get (Nat.div_lt_self hpos one_lt_two)]
    rfl

/-- C10: the cleaner also median-imputes `revenue_usd` (not only surface
score, tool wear cost and labor hours): whenever the merged table has at least
one non-null revenue, no null revenue survives cleaning, and the quality
report's critical-null count for `revenue_usd` over the cleaned table is 0. -/
theorem revenue_median_imputed (df : List Etl.Row)
    (h : ∃ r ∈ df, r.revenue_usd ≠ none) :
    (∀ r' ∈ Etl.clean_integrated df, r'.revenue_usd ≠ none) ∧
    (Quality.critical_null_counts (Quality.row_masks (Etl.clean_integrated df))).lookup
      "revenue_usd" = some 0 := by
  obtain ⟨r0, hr0, hrev⟩ := h
  have hsm : Etl.somes (df.map (·.revenue_usd)) ≠ [] := by
    intro hnil
    rw [Etl.somes, List.filterMap_eq_nil] at hnil
    exact hrev (hnil r0.revenue_usd (List.mem_map.mpr ⟨r0, hr0, rfl⟩))
  obtain ⟨m, hm⟩ := Option.isSome_iff_exists.mp (median_isSome hsm)
  have hall : ∀ r' ∈ Etl.clean_integrated df, r'.revenue_usd ≠ none := by
    intro r' hr'
    simp only [Etl.clean_integrated] at hr'
    obtain ⟨r, hr, rfl⟩ := List.mem_map.mp hr'
    rcases hx : r.revenue_usd with _ | v <;> simp [Etl.fill_cell, hx, hm]
  refine ⟨hall, ?_⟩
  have hcnt : ((Etl.clean_integrated df).map fun r => r.revenue_usd.isNone).count true = 0 := by
    rw [List.count_eq_zero]
    intro hmem
    obtain ⟨r', hr', hisnone⟩ := List.mem_map.mp hmem
    exact hall r' hr' (Option.isNone_iff_eq_none.mp hisnone)
  simp [Quality.critical_null_counts, Quality.row_masks, List.lookup, hcnt]

def c10_df : List Etl.Row :=
  [{ job_id := "J001", material := none, tool_id := "TOOL-ROUGH-20MM",
     feed_rate_mm_min := none, stepover_mm := none, path_length_mm := none,
     volume_removed_cm3 := none, simulation_time_min := none, spindle_current_a := none,
     torque_mean_nm := none, duration_s := none, energy_kwh := none, surface_score := none,
     defect_count := none, tool_wear_cost_usd := none, labor_hours := none,
     revenue_usd := some 5, stone_type := none, operator_notes := none }]

/-- Closed instance of `revenue_median_imputed` on a one-row table with a
non-null revenue. -/
theorem revenue_median_imputed_witness :
    (Quality.critical_null_counts (Quality.row_masks (Etl.clean_integrated c10_df))).lookup
      "revenue_usd" = some 0 :=
  (revenue_median_imputed c10_df
    ⟨c10_df.get ⟨0, by norm_num [c10_df]⟩, by simp [c10_df], by simp [c10_df]⟩).2
